import Mathlib

/-!
# espeak_bridge.c : the symbol-retention shim

Embedding of `ios/Classes/espeak-ng/espeak_bridge.c`.  The file holds one C
function, `kitten_tts_force_link_espeak`, which declares a local `p`, assigns
to it the addresses of five espeak-ng entry points and ends with `(void)p;`.

The function is embedded as a computation over an explicit machine state
(process-wide state plus the call stack of local frames) that also returns
the list of events it performed, so that statements about stores, loads,
calls and I/O can be read off the run.  Accesses carry a flag telling whether
the object accessed is volatile-qualified.
-/

namespace EspeakBridge

/-- Name of an external linker symbol (a function declared in `speak_lib.h`). -/
abbrev Symbol := String

/-- The C types that occur in the declaration `volatile void *p`. -/
inductive CType where
  | void : CType
  | volatileQual : CType → CType
  | pointer : CType → CType
deriving DecidableEq, Repr

/-- Whether an object of this type is itself volatile-qualified (top-level qualifier). -/
def CType.isVolatileObject : CType → Bool
  | .volatileQual _ => true
  | _ => false

/-- Pointer values: the address of a function, as a function pointer or as a `void *`. -/
inductive Val where
  | fnAddr : Symbol → Val
  | voidPtr : Symbol → Val
deriving DecidableEq, Repr

/-- The cast `(void *)e`: the address is kept, the static type becomes `void *`. -/
def castToVoidPtr : Val → Val
  | .fnAddr s => .voidPtr s
  | .voidPtr s => .voidPtr s

/-- One local variable of a frame: its name, declared type and current value
(`none` while uninitialised). -/
structure Slot where
  name : String
  ty : CType
  val : Option Val
deriving DecidableEq, Repr

/-- The automatic variables of one function activation. -/
abbrev Frame := List Slot

/-- Process-wide state: every object outside the frames (address ↦ word) and the
log of bytes transferred on I/O channels. -/
structure ProcState where
  memory : List (Nat × Nat)
  channels : List (Nat × Nat)
deriving DecidableEq, Repr

/-- Whole machine state: process-wide state and the call stack (innermost frame first). -/
structure Machine where
  proc : ProcState
  stack : List Frame
deriving DecidableEq, Repr

/-- What a computation can do that the claims talk about. -/
inductive Event where
  | takeAddr : Symbol → Event
  | store : String → Val → Bool → Event
  | load : String → Val → Bool → Event
  | memWrite : Nat → Nat → Event
  | call : Symbol → Event
  | transfer : Nat → Nat → Event
deriving DecidableEq, Repr

/-- Ways a computation can fail instead of returning. -/
inductive Fault where
  | noFrame : Fault
  | undeclared : String → Fault
  | uninitialised : String → Fault
deriving DecidableEq, Repr

/-- A C computation: from a machine state to a fault, or to a result, the new
machine state and the events performed, in order. -/
def Exec (α : Type) : Type := Machine → Except Fault (α × Machine × List Event)

/-- Run a computation from a machine state. -/
def Exec.run {α : Type} (f : Exec α) (m : Machine) : Except Fault (α × Machine × List Event) := f m

/-- Return a value without touching the state. -/
def Exec.ret {α : Type} (a : α) : Exec α := fun m => .ok (a, m, [])

/-- Sequencing: the second computation starts where the first stopped; events are appended. -/
def Exec.seq {α β : Type} (f : Exec α) (g : α → Exec β) : Exec β := fun m =>
  match f m with
  | .error e => .error e
  | .ok (a, m₁, tr₁) =>
    match g a m₁ with
    | .error e => .error e
    | .ok (b, m₂, tr₂) => .ok (b, m₂, tr₁ ++ tr₂)

instance : Monad Exec where
  pure := Exec.ret
  bind := Exec.seq

/-- Look a local variable up in a frame. -/
def Frame.lookup (fr : Frame) (x : String) : Option Slot :=
  fr.find? (fun s => s.name == x)

/-- Overwrite the value of the local `x` in a frame (one slot per variable). -/
def Frame.assign (fr : Frame) (x : String) (v : Val) : Frame :=
  fr.map (fun s => if s.name == x then { s with val := some v } else s)

/-- Declaration `T x;` without initialiser in the innermost frame. -/
def declLocal (x : String) (ty : CType) : Exec Unit := fun m =>
  match m.stack with
  | [] => .error .noFrame
  | fr :: rest => .ok ((), { m with stack := (fr ++ [⟨x, ty, none⟩]) :: rest }, [])

/-- Evaluation of a function designator `f` in a value context: its address is taken. -/
def addrOfFunction (s : Symbol) : Exec Val := fun m =>
  .ok (.fnAddr s, m, [.takeAddr s])

/-- Assignment `x = v;` to a local of the innermost frame. -/
def assignLocal (x : String) (v : Val) : Exec Unit := fun m =>
  match m.stack with
  | [] => .error .noFrame
  | fr :: rest =>
    match fr.lookup x with
    | none => .error (.undeclared x)
    | some s =>
      .ok ((), { m with stack := fr.assign x v :: rest }, [.store x v s.ty.isVolatileObject])

/-- Lvalue conversion of the local `x` where its value is used: the stored value is read. -/
def readLocal (x : String) : Exec Val := fun m =>
  match m.stack with
  | [] => .error .noFrame
  | fr :: _ =>
    match fr.lookup x with
    | none => .error (.undeclared x)
    | some s =>
      match s.val with
      | none => .error (.uninitialised x)
      | some v => .ok (v, m, [.load x v s.ty.isVolatileObject])

/-- Expression statement `(void)x;`: the local `x` is evaluated as a void expression,
for its side effects only, and its value or designator is discarded.  Naming a local
that is not declared or not yet assigned is a fault.  An access takes place only when
the object is volatile-qualified, where the read is itself a side effect. -/
def discardLocal (x : String) : Exec Unit := fun m =>
  match m.stack with
  | [] => .error .noFrame
  | fr :: _ =>
    match fr.lookup x with
    | none => .error (.undeclared x)
    | some s =>
      match s.val with
      | none => .error (.uninitialised x)
      | some v => .ok ((), m, if s.ty.isVolatileObject then [.load x v true] else [])

/-- Store of a word to an object outside the frames. -/
def writeMemory (a w : Nat) : Exec Unit := fun m =>
  .ok ((), { m with proc := { m.proc with memory := (a, w) :: m.proc.memory } }, [.memWrite a w])

/-- Transfer of a byte on an I/O channel. -/
def transferByte (chan b : Nat) : Exec Unit := fun m =>
  .ok ((), { m with proc := { m.proc with channels := (chan, b) :: m.proc.channels } },
    [.transfer chan b])

/-- Call of an external function through its symbol (its effect on the state is not modelled). -/
def callExternal (s : Symbol) : Exec Unit := fun m =>
  .ok ((), m, [.call s])

/-- The state in which a function body starts: a fresh, empty frame is pushed. -/
def Machine.enter (m : Machine) : Machine := { m with stack := [] :: m.stack }

/-- The state after a function returns: its frame is popped. -/
def Machine.leave (m : Machine) : Machine := { m with stack := m.stack.tail }

/-- Invocation of a parameterless function: push a frame, run the body, pop the frame. -/
def invoke {α : Type} (body : Exec α) : Exec α := fun m =>
  match body m.enter with
  | .error e => .error e
  | .ok (a, m₁, tr) => .ok (a, m₁.leave, tr)

/-- The body of `void kitten_tts_force_link_espeak(void)`, statement by statement:
`volatile void *p;`, five assignments `p = (void *)espeak_X;`, and `(void)p;`. -/
def kitten_tts_force_link_espeak : Exec Unit := do
  declLocal "p" (.pointer (.volatileQual .void))
  assignLocal "p" (castToVoidPtr (← addrOfFunction "espeak_Initialize"))
  assignLocal "p" (castToVoidPtr (← addrOfFunction "espeak_SetVoiceByName"))
  assignLocal "p" (castToVoidPtr (← addrOfFunction "espeak_TextToPhonemes"))
  assignLocal "p" (castToVoidPtr (← addrOfFunction "espeak_Terminate"))
  assignLocal "p" (castToVoidPtr (← addrOfFunction "espeak_Info"))
  discardLocal "p"

/-- The symbols whose address is taken in a trace, in order. -/
def addrsTaken (tr : List Event) : List Symbol :=
  tr.filterMap (fun e => match e with | .takeAddr s => some s | _ => none)

/-- Whether an event writes to an object (a local of a frame or process memory). -/
def Event.isStore : Event → Bool
  | .store _ _ _ => true
  | .memWrite _ _ => true
  | _ => false

/-- Whether an event reads a local variable. -/
def Event.isLoad : Event → Bool
  | .load _ _ _ => true
  | _ => false

/-- Whether an event touches anything outside the frames: process memory or an I/O channel. -/
def Event.isExternalEffect : Event → Bool
  | .memWrite _ _ => true
  | .transfer _ _ => true
  | _ => false

/-- The stores of a trace, in order. -/
def storesOf (tr : List Event) : List Event := tr.filter Event.isStore

/-- The loads of a trace, in order. -/
def loadsOf (tr : List Event) : List Event := tr.filter Event.isLoad

/-- A machine with empty memory, no I/O performed and no caller frame. -/
def initialMachine : Machine := ⟨⟨[], []⟩, []⟩

/-- The events of one run of the shim, in order. -/
def shimEvents : List Event :=
  [ .takeAddr "espeak_Initialize", .store "p" (.voidPtr "espeak_Initialize") false,
    .takeAddr "espeak_SetVoiceByName", .store "p" (.voidPtr "espeak_SetVoiceByName") false,
    .takeAddr "espeak_TextToPhonemes", .store "p" (.voidPtr "espeak_TextToPhonemes") false,
    .takeAddr "espeak_Terminate", .store "p" (.voidPtr "espeak_Terminate") false,
    .takeAddr "espeak_Info", .store "p" (.voidPtr "espeak_Info") false ]

/-- The shim's frame at the point where the function returns. -/
def frameAtReturn : Frame :=
  [⟨"p", .pointer (.volatileQual .void), some (.voidPtr "espeak_Info")⟩]

/-- Running the body in a fresh frame: it returns, with `p` the only slot, and
performs exactly `shimEvents`. -/
theorem body_run (m : Machine) :
    kitten_tts_force_link_espeak.run m.enter
      = .ok ((), ⟨m.proc, frameAtReturn :: m.stack⟩, shimEvents) := by
  rfl

/-- Invoking the shim: it returns, the machine is as before, and the events are `shimEvents`. -/
theorem invoke_run (m : Machine) :
    (invoke kitten_tts_force_link_espeak).run m = .ok ((), m, shimEvents) := by
  rfl

/-- The body cannot run outside an invocation: without a frame the declaration faults. -/
theorem body_needs_frame (ps : ProcState) :
    kitten_tts_force_link_espeak.run ⟨ps, []⟩ = .error .noFrame := by
  rfl

/-- Evaluating a declared but never assigned local faults: the final `(void)p;` returns
only because `p` has been assigned before it. -/
theorem discard_before_assign_faults (ps : ProcState) :
    (declLocal "p" (.pointer (.volatileQual .void)) >>= fun _ => discardLocal "p").run ⟨ps, [[]]⟩
      = .error (.uninitialised "p") := by
  rfl

/-- Using the value of `p` would be a read: `readLocal` records a load. -/
theorem use_of_value_reads (ps : ProcState) :
    (readLocal "p").run ⟨ps, [frameAtReturn]⟩
      = .ok (.voidPtr "espeak_Info", ⟨ps, [frameAtReturn]⟩,
          [.load "p" (.voidPtr "espeak_Info") false]) := by
  rfl

/-- With the qualifier on the pointer itself (`void *volatile p`), the assignment is a
volatile store and `(void)p;` a volatile read: the flags follow the declared type. -/
theorem volatile_pointer_accesses (ps : ProcState) :
    (do declLocal "p" (.volatileQual (.pointer .void))
        assignLocal "p" (castToVoidPtr (← addrOfFunction "espeak_Info"))
        discardLocal "p" : Exec Unit).run ⟨ps, [[]]⟩
      = .ok ((), ⟨ps, [[⟨"p", .volatileQual (.pointer .void), some (.voidPtr "espeak_Info")⟩]]⟩,
          [.takeAddr "espeak_Info", .store "p" (.voidPtr "espeak_Info") true,
           .load "p" (.voidPtr "espeak_Info") true]) := by
  rfl

/-- C1: for every initial machine state, invoking `kitten_tts_force_link_espeak`
returns with the machine state (process memory, I/O channels, the callers' frames)
equal to the state before the call, and no event of the run writes process memory
or transfers on an I/O channel. -/
theorem force_link_state_unchanged (m : Machine) :
    ∃ tr, (invoke kitten_tts_force_link_espeak).run m = .ok ((), m, tr)
      ∧ ∀ e ∈ tr, e.isExternalEffect = false :=
  ⟨shimEvents, invoke_run m, by decide⟩

/-- C2: for every initial machine state the invocation of
`kitten_tts_force_link_espeak` returns normally after a fixed number of events
(ten, whatever the state), and it never ends in a fault. -/
theorem force_link_returns (m : Machine) :
    (∃ m' tr, (invoke kitten_tts_force_link_espeak).run m = .ok ((), m', tr) ∧ tr.length = 10)
      ∧ ∀ f, (invoke kitten_tts_force_link_espeak).run m ≠ .error f := by
  refine ⟨⟨m, shimEvents, invoke_run m, rfl⟩, ?_⟩
  intro f h
  rw [invoke_run m] at h
  cases h

/-- C3: in every run of `kitten_tts_force_link_espeak` the symbols whose address is
taken are exactly `espeak_Initialize`, `espeak_SetVoiceByName`,
`espeak_TextToPhonemes`, `espeak_Terminate` and `espeak_Info`: each of the five is
referenced and no other symbol is. -/
theorem force_link_references_exactly_five (m : Machine) :
    ∃ m' tr, (invoke kitten_tts_force_link_espeak).run m = .ok ((), m', tr)
      ∧ ∀ s : Symbol, s ∈ addrsTaken tr ↔
          s ∈ ["espeak_Initialize", "espeak_SetVoiceByName", "espeak_TextToPhonemes",
               "espeak_Terminate", "espeak_Info"] :=
  ⟨m, shimEvents, invoke_run m, fun _ => Iff.rfl⟩

/-- C4: in every run of `kitten_tts_force_link_espeak` the trace contains no call
event at all, in particular none to the five entry points, while the address of
each of the five is taken as a value. -/
theorem force_link_never_calls (m : Machine) :
    ∃ m' tr, (invoke kitten_tts_force_link_espeak).run m = .ok ((), m', tr)
      ∧ (∀ s : Symbol, Event.call s ∉ tr)
      ∧ ∀ s ∈ ["espeak_Initialize", "espeak_SetVoiceByName", "espeak_TextToPhonemes",
               "espeak_Terminate", "espeak_Info"],
          Event.takeAddr s ∈ tr ∧ Event.call s ∉ tr := by
  have hcall : ∀ s : Symbol, Event.call s ∉ shimEvents := by
    intro s h
    simp [shimEvents] at h
  refine ⟨m, shimEvents, invoke_run m, hcall, ?_⟩
  intro s hs
  refine ⟨?_, hcall s⟩
  simp only [List.mem_cons, List.mem_singleton, List.not_mem_nil, or_false] at hs
  rcases hs with h | h | h | h | h <;> subst h <;> decide

/-- C5 fails as stated: run from the initial machine, the shim returns and the stores
of its trace are not empty (it stores to its local `p`). -/
theorem force_link_stores_nonempty :
    ∃ m' tr, (invoke kitten_tts_force_link_espeak).run initialMachine = .ok ((), m', tr)
      ∧ storesOf tr ≠ [] :=
  ⟨initialMachine, shimEvents, invoke_run initialMachine, by decide⟩

/-- C5, amended: invoking `kitten_tts_force_link_espeak` performs no memory write
outside its own local `p`: the stores of its trace are the five stores to `p`, and
no event writes process memory. -/
theorem force_link_stores_only_local (m : Machine) :
    ∃ m' tr, (invoke kitten_tts_force_link_espeak).run m = .ok ((), m', tr)
      ∧ storesOf tr =
          [ .store "p" (.voidPtr "espeak_Initialize") false,
            .store "p" (.voidPtr "espeak_SetVoiceByName") false,
            .store "p" (.voidPtr "espeak_TextToPhonemes") false,
            .store "p" (.voidPtr "espeak_Terminate") false,
            .store "p" (.voidPtr "espeak_Info") false ]
      ∧ ∀ a w, Event.memWrite a w ∉ tr := by
  refine ⟨m, shimEvents, invoke_run m, rfl, ?_⟩
  intro a w h
  simp [shimEvents] at h

/-- C6: the shim has no parameter and returns unit; for any two initial machine
states both runs return the same result and take the same sequence of entry-point
addresses. -/
theorem force_link_state_independent (m₁ m₂ : Machine) :
    ∃ m₁' m₂' tr₁ tr₂,
      (invoke kitten_tts_force_link_espeak).run m₁ = .ok ((), m₁', tr₁)
      ∧ (invoke kitten_tts_force_link_espeak).run m₂ = .ok ((), m₂', tr₂)
      ∧ addrsTaken tr₁ = addrsTaken tr₂ :=
  ⟨m₁, m₂, shimEvents, shimEvents, invoke_run m₁, invoke_run m₂, rfl⟩

/-- C8: the addresses taken by `kitten_tts_force_link_espeak` are held only in the
local `p`: every store of the run targets `p`, the trace contains no read of `p` (the
final `(void)p;` discards it; no load of any local is recorded), nothing is written to
process memory, and after the return the machine state is the one before the call, so
the frame of `p` is gone. -/
theorem force_link_local_confined (m : Machine) :
    ∃ tr, (invoke kitten_tts_force_link_espeak).run m = .ok ((), m, tr)
      ∧ (∀ e ∈ storesOf tr, ∃ v, e = Event.store "p" v false)
      ∧ (∀ v b, Event.load "p" v b ∉ tr)
      ∧ loadsOf tr = []
      ∧ (∀ a w, Event.memWrite a w ∉ tr) := by
  refine ⟨shimEvents, invoke_run m, ?_, ?_, rfl, ?_⟩
  · intro e he
    have h5 : storesOf shimEvents =
        [ .store "p" (.voidPtr "espeak_Initialize") false,
          .store "p" (.voidPtr "espeak_SetVoiceByName") false,
          .store "p" (.voidPtr "espeak_TextToPhonemes") false,
          .store "p" (.voidPtr "espeak_Terminate") false,
          .store "p" (.voidPtr "espeak_Info") false ] := rfl
    rw [h5] at he
    simp only [List.mem_cons, List.mem_singleton, List.not_mem_nil, or_false] at he
    rcases he with h | h | h | h | h <;> exact ⟨_, h⟩
  · intro v b h
    simp [shimEvents] at h
  · intro a w h
    simp [shimEvents] at h

/-- The body of `kitten_tts_force_link_espeak` performs exactly five assignments to its
local `p`, in the order `espeak_Initialize`, `espeak_SetVoiceByName`,
`espeak_TextToPhonemes`, `espeak_Terminate`, `espeak_Info`, each overwriting the
previous one: at the return the frame has the single slot `p`, holding the address of
`espeak_Info`. -/
theorem body_five_assignments (m : Machine) :
    ∃ tr, kitten_tts_force_link_espeak.run m.enter
        = .ok ((), ⟨m.proc, [⟨"p", .pointer (.volatileQual .void),
                      some (.voidPtr "espeak_Info")⟩] :: m.stack⟩, tr)
      ∧ (storesOf tr).map (fun e => match e with | .store x v _ => some (x, v) | _ => none) =
          [ some ("p", .voidPtr "espeak_Initialize"),
            some ("p", .voidPtr "espeak_SetVoiceByName"),
            some ("p", .voidPtr "espeak_TextToPhonemes"),
            some ("p", .voidPtr "espeak_Terminate"),
            some ("p", .voidPtr "espeak_Info") ] :=
  ⟨shimEvents, body_run m, rfl⟩

/-- C9, the code at the failing input: run from the initial machine, the body returns
with the single slot `p` holding the address of `espeak_Info` after five assignments
in the claimed order, but `p` is declared `volatile void *p`, a pointer to volatile
`void`: the object `p` is not volatile-qualified and none of the five stores is a
volatile access. -/
theorem force_link_local_not_volatile :
    ∃ s tr, kitten_tts_force_link_espeak.run initialMachine.enter
        = .ok ((), ⟨initialMachine.proc, [[s]]⟩, tr)
      ∧ s.name = "p" ∧ s.val = some (.voidPtr "espeak_Info")
      ∧ s.ty = .pointer (.volatileQual .void)
      ∧ s.ty.isVolatileObject = false
      ∧ storesOf tr =
          [ .store "p" (.voidPtr "espeak_Initialize") false,
            .store "p" (.voidPtr "espeak_SetVoiceByName") false,
            .store "p" (.voidPtr "espeak_TextToPhonemes") false,
            .store "p" (.voidPtr "espeak_Terminate") false,
            .store "p" (.voidPtr "espeak_Info") false ] :=
  ⟨⟨"p", .pointer (.volatileQual .void), some (.voidPtr "espeak_Info")⟩, shimEvents,
    body_run initialMachine, rfl, rfl, rfl, rfl, rfl⟩

end EspeakBridge
